import Mathlib

/-!
Verification of the `kkjgrep` command-line search utility (src/lib.rs).

Strings are modelled as `List Char`; the process environment variable
`IGNORE_CASE` is modelled as an explicit `Option (List Char)` parameter;
standard output is modelled as the list of emitted lines.
-/

namespace Kkjgrep

/-- Prepends a character to the first line of a line list, used to build up
the result of line splitting (a fresh singleton line when the list is empty). -/
def consHead (c : Char) : List (List Char) → List (List Char)
  | [] => [[c]]
  | l :: ls => (c :: l) :: ls

/-- Models Rust `str::lines`, used by `search` and `search_case_insensitive`:
lines are terminated by `\n` or `\r\n` (the carriage return of a `\r\n`
terminator is not part of the line's content), the final terminator is
optional, and a trailing terminator produces no empty final line. -/
def rustLines : List Char → List (List Char)
  | [] => []
  | '\n' :: cs => [] :: rustLines cs
  | '\r' :: '\n' :: cs => [] :: rustLines cs
  | c :: cs => consHead c (rustLines cs)

/-- Removes a single trailing carriage return, if present (the normalisation
Rust `str::lines` applies to a line terminated by `\r\n`). -/
def stripCR : List Char → List Char
  | [] => []
  | c :: cs => if c = '\r' ∧ cs = [] then [] else c :: stripCR cs

set_option maxHeartbeats 2000000 in
/-- The Unicode full (unconditional) lowercase mapping used by Rust
`char::to_lowercase`, as pairs of codepoints `(upper, lower)`; every mapping
has a single-codepoint target except U+0130, which is handled separately in
`charToLowercase`. -/
def lowerTable : List (Nat × Nat) := [
  (65, 97), (66, 98), (67, 99), (68, 100), (69, 101), (70, 102), (71, 103), (72, 104),
  (73, 105), (74, 106), (75, 107), (76, 108), (77, 109), (78, 110), (79, 111), (80, 112),
  (81, 113), (82, 114), (83, 115), (84, 116), (85, 117), (86, 118), (87, 119), (88, 120),
  (89, 121), (90, 122), (192, 224), (193, 225), (194, 226), (195, 227), (196, 228), (197, 229),
  (198, 230), (199, 231), (200, 232), (201, 233), (202, 234), (203, 235), (204, 236), (205, 237),
  (206, 238), (207, 239), (208, 240), (209, 241), (210, 242), (211, 243), (212, 244), (213, 245),
  (214, 246), (216, 248), (217, 249), (218, 250), (219, 251), (220, 252), (221, 253), (222, 254),
  (256, 257), (258, 259), (260, 261), (262, 263), (264, 265), (266, 267), (268, 269), (270, 271),
  (272, 273), (274, 275), (276, 277), (278, 279), (280, 281), (282, 283), (284, 285), (286, 287),
  (288, 289), (290, 291), (292, 293), (294, 295), (296, 297), (298, 299), (300, 301), (302, 303),
  (306, 307), (308, 309), (310, 311), (313, 314), (315, 316), (317, 318), (319, 320), (321, 322),
  (323, 324), (325, 326), (327, 328), (330, 331), (332, 333), (334, 335), (336, 337), (338, 339),
  (340, 341), (342, 343), (344, 345), (346, 347), (348, 349), (350, 351), (352, 353), (354, 355),
  (356, 357), (358, 359), (360, 361), (362, 363), (364, 365), (366, 367), (368, 369), (370, 371),
  (372, 373), (374, 375), (376, 255), (377, 378), (379, 380), (381, 382), (385, 595), (386, 387),
  (388, 389), (390, 596), (391, 392), (393, 598), (394, 599), (395, 396), (398, 477), (399, 601),
  (400, 603), (401, 402), (403, 608), (404, 611), (406, 617), (407, 616), (408, 409), (412, 623),
  (413, 626), (415, 629), (416, 417), (418, 419), (420, 421), (422, 640), (423, 424), (425, 643),
  (428, 429), (430, 648), (431, 432), (433, 650), (434, 651), (435, 436), (437, 438), (439, 658),
  (440, 441), (444, 445), (452, 454), (453, 454), (455, 457), (456, 457), (458, 460), (459, 460),
  (461, 462), (463, 464), (465, 466), (467, 468), (469, 470), (471, 472), (473, 474), (475, 476),
  (478, 479), (480, 481), (482, 483), (484, 485), (486, 487), (488, 489), (490, 491), (492, 493),
  (494, 495), (497, 499), (498, 499), (500, 501), (502, 405), (503, 447), (504, 505), (506, 507),
  (508, 509), (510, 511), (512, 513), (514, 515), (516, 517), (518, 519), (520, 521), (522, 523),
  (524, 525), (526, 527), (528, 529), (530, 531), (532, 533), (534, 535), (536, 537), (538, 539),
  (540, 541), (542, 543), (544, 414), (546, 547), (548, 549), (550, 551), (552, 553), (554, 555),
  (556, 557), (558, 559), (560, 561), (562, 563), (570, 11365), (571, 572), (573, 410), (574, 11366),
  (577, 578), (579, 384), (580, 649), (581, 652), (582, 583), (584, 585), (586, 587), (588, 589),
  (590, 591), (880, 881), (882, 883), (886, 887), (895, 1011), (902, 940), (904, 941), (905, 942),
  (906, 943), (908, 972), (910, 973), (911, 974), (913, 945), (914, 946), (915, 947), (916, 948),
  (917, 949), (918, 950), (919, 951), (920, 952), (921, 953), (922, 954), (923, 955), (924, 956),
  (925, 957), (926, 958), (927, 959), (928, 960), (929, 961), (931, 963), (932, 964), (933, 965),
  (934, 966), (935, 967), (936, 968), (937, 969), (938, 970), (939, 971), (975, 983), (984, 985),
  (986, 987), (988, 989), (990, 991), (992, 993), (994, 995), (996, 997), (998, 999), (1000, 1001),
  (1002, 1003), (1004, 1005), (1006, 1007), (1012, 952), (1015, 1016), (1017, 1010), (1018, 1019), (1021, 891),
  (1022, 892), (1023, 893), (1024, 1104), (1025, 1105), (1026, 1106), (1027, 1107), (1028, 1108), (1029, 1109),
  (1030, 1110), (1031, 1111), (1032, 1112), (1033, 1113), (1034, 1114), (1035, 1115), (1036, 1116), (1037, 1117),
  (1038, 1118), (1039, 1119), (1040, 1072), (1041, 1073), (1042, 1074), (1043, 1075), (1044, 1076), (1045, 1077),
  (1046, 1078), (1047, 1079), (1048, 1080), (1049, 1081), (1050, 1082), (1051, 1083), (1052, 1084), (1053, 1085),
  (1054, 1086), (1055, 1087), (1056, 1088), (1057, 1089), (1058, 1090), (1059, 1091), (1060, 1092), (1061, 1093),
  (1062, 1094), (1063, 1095), (1064, 1096), (1065, 1097), (1066, 1098), (1067, 1099), (1068, 1100), (1069, 1101),
  (1070, 1102), (1071, 1103), (1120, 1121), (1122, 1123), (1124, 1125), (1126, 1127), (1128, 1129), (1130, 1131),
  (1132, 1133), (1134, 1135), (1136, 1137), (1138, 1139), (1140, 1141), (1142, 1143), (1144, 1145), (1146, 1147),
  (1148, 1149), (1150, 1151), (1152, 1153), (1162, 1163), (1164, 1165), (1166, 1167), (1168, 1169), (1170, 1171),
  (1172, 1173), (1174, 1175), (1176, 1177), (1178, 1179), (1180, 1181), (1182, 1183), (1184, 1185), (1186, 1187),
  (1188, 1189), (1190, 1191), (1192, 1193), (1194, 1195), (1196, 1197), (1198, 1199), (1200, 1201), (1202, 1203),
  (1204, 1205), (1206, 1207), (1208, 1209), (1210, 1211), (1212, 1213), (1214, 1215), (1216, 1231), (1217, 1218),
  (1219, 1220), (1221, 1222), (1223, 1224), (1225, 1226), (1227, 1228), (1229, 1230), (1232, 1233), (1234, 1235),
  (1236, 1237), (1238, 1239), (1240, 1241), (1242, 1243), (1244, 1245), (1246, 1247), (1248, 1249), (1250, 1251),
  (1252, 1253), (1254, 1255), (1256, 1257), (1258, 1259), (1260, 1261), (1262, 1263), (1264, 1265), (1266, 1267),
  (1268, 1269), (1270, 1271), (1272, 1273), (1274, 1275), (1276, 1277), (1278, 1279), (1280, 1281), (1282, 1283),
  (1284, 1285), (1286, 1287), (1288, 1289), (1290, 1291), (1292, 1293), (1294, 1295), (1296, 1297), (1298, 1299),
  (1300, 1301), (1302, 1303), (1304, 1305), (1306, 1307), (1308, 1309), (1310, 1311), (1312, 1313), (1314, 1315),
  (1316, 1317), (1318, 1319), (1320, 1321), (1322, 1323), (1324, 1325), (1326, 1327), (1329, 1377), (1330, 1378),
  (1331, 1379), (1332, 1380), (1333, 1381), (1334, 1382), (1335, 1383), (1336, 1384), (1337, 1385), (1338, 1386),
  (1339, 1387), (1340, 1388), (1341, 1389), (1342, 1390), (1343, 1391), (1344, 1392), (1345, 1393), (1346, 1394),
  (1347, 1395), (1348, 1396), (1349, 1397), (1350, 1398), (1351, 1399), (1352, 1400), (1353, 1401), (1354, 1402),
  (1355, 1403), (1356, 1404), (1357, 1405), (1358, 1406), (1359, 1407), (1360, 1408), (1361, 1409), (1362, 1410),
  (1363, 1411), (1364, 1412), (1365, 1413), (1366, 1414), (4256, 11520), (4257, 11521), (4258, 11522), (4259, 11523),
  (4260, 11524), (4261, 11525), (4262, 11526), (4263, 11527), (4264, 11528), (4265, 11529), (4266, 11530), (4267, 11531),
  (4268, 11532), (4269, 11533), (4270, 11534), (4271, 11535), (4272, 11536), (4273, 11537), (4274, 11538), (4275, 11539),
  (4276, 11540), (4277, 11541), (4278, 11542), (4279, 11543), (4280, 11544), (4281, 11545), (4282, 11546), (4283, 11547),
  (4284, 11548), (4285, 11549), (4286, 11550), (4287, 11551), (4288, 11552), (4289, 11553), (4290, 11554), (4291, 11555),
  (4292, 11556), (4293, 11557), (4295, 11559), (4301, 11565), (5024, 43888), (5025, 43889), (5026, 43890), (5027, 43891),
  (5028, 43892), (5029, 43893), (5030, 43894), (5031, 43895), (5032, 43896), (5033, 43897), (5034, 43898), (5035, 43899),
  (5036, 43900), (5037, 43901), (5038, 43902), (5039, 43903), (5040, 43904), (5041, 43905), (5042, 43906), (5043, 43907),
  (5044, 43908), (5045, 43909), (5046, 43910), (5047, 43911), (5048, 43912), (5049, 43913), (5050, 43914), (5051, 43915),
  (5052, 43916), (5053, 43917), (5054, 43918), (5055, 43919), (5056, 43920), (5057, 43921), (5058, 43922), (5059, 43923),
  (5060, 43924), (5061, 43925), (5062, 43926), (5063, 43927), (5064, 43928), (5065, 43929), (5066, 43930), (5067, 43931),
  (5068, 43932), (5069, 43933), (5070, 43934), (5071, 43935), (5072, 43936), (5073, 43937), (5074, 43938), (5075, 43939),
  (5076, 43940), (5077, 43941), (5078, 43942), (5079, 43943), (5080, 43944), (5081, 43945), (5082, 43946), (5083, 43947),
  (5084, 43948), (5085, 43949), (5086, 43950), (5087, 43951), (5088, 43952), (5089, 43953), (5090, 43954), (5091, 43955),
  (5092, 43956), (5093, 43957), (5094, 43958), (5095, 43959), (5096, 43960), (5097, 43961), (5098, 43962), (5099, 43963),
  (5100, 43964), (5101, 43965), (5102, 43966), (5103, 43967), (5104, 5112), (5105, 5113), (5106, 5114), (5107, 5115),
  (5108, 5116), (5109, 5117), (7312, 4304), (7313, 4305), (7314, 4306), (7315, 4307), (7316, 4308), (7317, 4309),
  (7318, 4310), (7319, 4311), (7320, 4312), (7321, 4313), (7322, 4314), (7323, 4315), (7324, 4316), (7325, 4317),
  (7326, 4318), (7327, 4319), (7328, 4320), (7329, 4321), (7330, 4322), (7331, 4323), (7332, 4324), (7333, 4325),
  (7334, 4326), (7335, 4327), (7336, 4328), (7337, 4329), (7338, 4330), (7339, 4331), (7340, 4332), (7341, 4333),
  (7342, 4334), (7343, 4335), (7344, 4336), (7345, 4337), (7346, 4338), (7347, 4339), (7348, 4340), (7349, 4341),
  (7350, 4342), (7351, 4343), (7352, 4344), (7353, 4345), (7354, 4346), (7357, 4349), (7358, 4350), (7359, 4351),
  (7680, 7681), (7682, 7683), (7684, 7685), (7686, 7687), (7688, 7689), (7690, 7691), (7692, 7693), (7694, 7695),
  (7696, 7697), (7698, 7699), (7700, 7701), (7702, 7703), (7704, 7705), (7706, 7707), (7708, 7709), (7710, 7711),
  (7712, 7713), (7714, 7715), (7716, 7717), (7718, 7719), (7720, 7721), (7722, 7723), (7724, 7725), (7726, 7727),
  (7728, 7729), (7730, 7731), (7732, 7733), (7734, 7735), (7736, 7737), (7738, 7739), (7740, 7741), (7742, 7743),
  (7744, 7745), (7746, 7747), (7748, 7749), (7750, 7751), (7752, 7753), (7754, 7755), (7756, 7757), (7758, 7759),
  (7760, 7761), (7762, 7763), (7764, 7765), (7766, 7767), (7768, 7769), (7770, 7771), (7772, 7773), (7774, 7775),
  (7776, 7777), (7778, 7779), (7780, 7781), (7782, 7783), (7784, 7785), (7786, 7787), (7788, 7789), (7790, 7791),
  (7792, 7793), (7794, 7795), (7796, 7797), (7798, 7799), (7800, 7801), (7802, 7803), (7804, 7805), (7806, 7807),
  (7808, 7809), (7810, 7811), (7812, 7813), (7814, 7815), (7816, 7817), (7818, 7819), (7820, 7821), (7822, 7823),
  (7824, 7825), (7826, 7827), (7828, 7829), (7838, 223), (7840, 7841), (7842, 7843), (7844, 7845), (7846, 7847),
  (7848, 7849), (7850, 7851), (7852, 7853), (7854, 7855), (7856, 7857), (7858, 7859), (7860, 7861), (7862, 7863),
  (7864, 7865), (7866, 7867), (7868, 7869), (7870, 7871), (7872, 7873), (7874, 7875), (7876, 7877), (7878, 7879),
  (7880, 7881), (7882, 7883), (7884, 7885), (7886, 7887), (7888, 7889), (7890, 7891), (7892, 7893), (7894, 7895),
  (7896, 7897), (7898, 7899), (7900, 7901), (7902, 7903), (7904, 7905), (7906, 7907), (7908, 7909), (7910, 7911),
  (7912, 7913), (7914, 7915), (7916, 7917), (7918, 7919), (7920, 7921), (7922, 7923), (7924, 7925), (7926, 7927),
  (7928, 7929), (7930, 7931), (7932, 7933), (7934, 7935), (7944, 7936), (7945, 7937), (7946, 7938), (7947, 7939),
  (7948, 7940), (7949, 7941), (7950, 7942), (7951, 7943), (7960, 7952), (7961, 7953), (7962, 7954), (7963, 7955),
  (7964, 7956), (7965, 7957), (7976, 7968), (7977, 7969), (7978, 7970), (7979, 7971), (7980, 7972), (7981, 7973),
  (7982, 7974), (7983, 7975), (7992, 7984), (7993, 7985), (7994, 7986), (7995, 7987), (7996, 7988), (7997, 7989),
  (7998, 7990), (7999, 7991), (8008, 8000), (8009, 8001), (8010, 8002), (8011, 8003), (8012, 8004), (8013, 8005),
  (8025, 8017), (8027, 8019), (8029, 8021), (8031, 8023), (8040, 8032), (8041, 8033), (8042, 8034), (8043, 8035),
  (8044, 8036), (8045, 8037), (8046, 8038), (8047, 8039), (8072, 8064), (8073, 8065), (8074, 8066), (8075, 8067),
  (8076, 8068), (8077, 8069), (8078, 8070), (8079, 8071), (8088, 8080), (8089, 8081), (8090, 8082), (8091, 8083),
  (8092, 8084), (8093, 8085), (8094, 8086), (8095, 8087), (8104, 8096), (8105, 8097), (8106, 8098), (8107, 8099),
  (8108, 8100), (8109, 8101), (8110, 8102), (8111, 8103), (8120, 8112), (8121, 8113), (8122, 8048), (8123, 8049),
  (8124, 8115), (8136, 8050), (8137, 8051), (8138, 8052), (8139, 8053), (8140, 8131), (8152, 8144), (8153, 8145),
  (8154, 8054), (8155, 8055), (8168, 8160), (8169, 8161), (8170, 8058), (8171, 8059), (8172, 8165), (8184, 8056),
  (8185, 8057), (8186, 8060), (8187, 8061), (8188, 8179), (8486, 969), (8490, 107), (8491, 229), (8498, 8526),
  (8544, 8560), (8545, 8561), (8546, 8562), (8547, 8563), (8548, 8564), (8549, 8565), (8550, 8566), (8551, 8567),
  (8552, 8568), (8553, 8569), (8554, 8570), (8555, 8571), (8556, 8572), (8557, 8573), (8558, 8574), (8559, 8575),
  (8579, 8580), (9398, 9424), (9399, 9425), (9400, 9426), (9401, 9427), (9402, 9428), (9403, 9429), (9404, 9430),
  (9405, 9431), (9406, 9432), (9407, 9433), (9408, 9434), (9409, 9435), (9410, 9436), (9411, 9437), (9412, 9438),
  (9413, 9439), (9414, 9440), (9415, 9441), (9416, 9442), (9417, 9443), (9418, 9444), (9419, 9445), (9420, 9446),
  (9421, 9447), (9422, 9448), (9423, 9449), (11264, 11312), (11265, 11313), (11266, 11314), (11267, 11315), (11268, 11316),
  (11269, 11317), (11270, 11318), (11271, 11319), (11272, 11320), (11273, 11321), (11274, 11322), (11275, 11323), (11276, 11324),
  (11277, 11325), (11278, 11326), (11279, 11327), (11280, 11328), (11281, 11329), (11282, 11330), (11283, 11331), (11284, 11332),
  (11285, 11333), (11286, 11334), (11287, 11335), (11288, 11336), (11289, 11337), (11290, 11338), (11291, 11339), (11292, 11340),
  (11293, 11341), (11294, 11342), (11295, 11343), (11296, 11344), (11297, 11345), (11298, 11346), (11299, 11347), (11300, 11348),
  (11301, 11349), (11302, 11350), (11303, 11351), (11304, 11352), (11305, 11353), (11306, 11354), (11307, 11355), (11308, 11356),
  (11309, 11357), (11310, 11358), (11311, 11359), (11360, 11361), (11362, 619), (11363, 7549), (11364, 637), (11367, 11368),
  (11369, 11370), (11371, 11372), (11373, 593), (11374, 625), (11375, 592), (11376, 594), (11378, 11379), (11381, 11382),
  (11390, 575), (11391, 576), (11392, 11393), (11394, 11395), (11396, 11397), (11398, 11399), (11400, 11401), (11402, 11403),
  (11404, 11405), (11406, 11407), (11408, 11409), (11410, 11411), (11412, 11413), (11414, 11415), (11416, 11417), (11418, 11419),
  (11420, 11421), (11422, 11423), (11424, 11425), (11426, 11427), (11428, 11429), (11430, 11431), (11432, 11433), (11434, 11435),
  (11436, 11437), (11438, 11439), (11440, 11441), (11442, 11443), (11444, 11445), (11446, 11447), (11448, 11449), (11450, 11451),
  (11452, 11453), (11454, 11455), (11456, 11457), (11458, 11459), (11460, 11461), (11462, 11463), (11464, 11465), (11466, 11467),
  (11468, 11469), (11470, 11471), (11472, 11473), (11474, 11475), (11476, 11477), (11478, 11479), (11480, 11481), (11482, 11483),
  (11484, 11485), (11486, 11487), (11488, 11489), (11490, 11491), (11499, 11500), (11501, 11502), (11506, 11507), (42560, 42561),
  (42562, 42563), (42564, 42565), (42566, 42567), (42568, 42569), (42570, 42571), (42572, 42573), (42574, 42575), (42576, 42577),
  (42578, 42579), (42580, 42581), (42582, 42583), (42584, 42585), (42586, 42587), (42588, 42589), (42590, 42591), (42592, 42593),
  (42594, 42595), (42596, 42597), (42598, 42599), (42600, 42601), (42602, 42603), (42604, 42605), (42624, 42625), (42626, 42627),
  (42628, 42629), (42630, 42631), (42632, 42633), (42634, 42635), (42636, 42637), (42638, 42639), (42640, 42641), (42642, 42643),
  (42644, 42645), (42646, 42647), (42648, 42649), (42650, 42651), (42786, 42787), (42788, 42789), (42790, 42791), (42792, 42793),
  (42794, 42795), (42796, 42797), (42798, 42799), (42802, 42803), (42804, 42805), (42806, 42807), (42808, 42809), (42810, 42811),
  (42812, 42813), (42814, 42815), (42816, 42817), (42818, 42819), (42820, 42821), (42822, 42823), (42824, 42825), (42826, 42827),
  (42828, 42829), (42830, 42831), (42832, 42833), (42834, 42835), (42836, 42837), (42838, 42839), (42840, 42841), (42842, 42843),
  (42844, 42845), (42846, 42847), (42848, 42849), (42850, 42851), (42852, 42853), (42854, 42855), (42856, 42857), (42858, 42859),
  (42860, 42861), (42862, 42863), (42873, 42874), (42875, 42876), (42877, 7545), (42878, 42879), (42880, 42881), (42882, 42883),
  (42884, 42885), (42886, 42887), (42891, 42892), (42893, 613), (42896, 42897), (42898, 42899), (42902, 42903), (42904, 42905),
  (42906, 42907), (42908, 42909), (42910, 42911), (42912, 42913), (42914, 42915), (42916, 42917), (42918, 42919), (42920, 42921),
  (42922, 614), (42923, 604), (42924, 609), (42925, 620), (42926, 618), (42928, 670), (42929, 647), (42930, 669),
  (42931, 43859), (42932, 42933), (42934, 42935), (42936, 42937), (42938, 42939), (42940, 42941), (42942, 42943), (42944, 42945),
  (42946, 42947), (42948, 42900), (42949, 642), (42950, 7566), (42951, 42952), (42953, 42954), (42960, 42961), (42966, 42967),
  (42968, 42969), (42997, 42998), (65313, 65345), (65314, 65346), (65315, 65347), (65316, 65348), (65317, 65349), (65318, 65350),
  (65319, 65351), (65320, 65352), (65321, 65353), (65322, 65354), (65323, 65355), (65324, 65356), (65325, 65357), (65326, 65358),
  (65327, 65359), (65328, 65360), (65329, 65361), (65330, 65362), (65331, 65363), (65332, 65364), (65333, 65365), (65334, 65366),
  (65335, 65367), (65336, 65368), (65337, 65369), (65338, 65370), (66560, 66600), (66561, 66601), (66562, 66602), (66563, 66603),
  (66564, 66604), (66565, 66605), (66566, 66606), (66567, 66607), (66568, 66608), (66569, 66609), (66570, 66610), (66571, 66611),
  (66572, 66612), (66573, 66613), (66574, 66614), (66575, 66615), (66576, 66616), (66577, 66617), (66578, 66618), (66579, 66619),
  (66580, 66620), (66581, 66621), (66582, 66622), (66583, 66623), (66584, 66624), (66585, 66625), (66586, 66626), (66587, 66627),
  (66588, 66628), (66589, 66629), (66590, 66630), (66591, 66631), (66592, 66632), (66593, 66633), (66594, 66634), (66595, 66635),
  (66596, 66636), (66597, 66637), (66598, 66638), (66599, 66639), (66736, 66776), (66737, 66777), (66738, 66778), (66739, 66779),
  (66740, 66780), (66741, 66781), (66742, 66782), (66743, 66783), (66744, 66784), (66745, 66785), (66746, 66786), (66747, 66787),
  (66748, 66788), (66749, 66789), (66750, 66790), (66751, 66791), (66752, 66792), (66753, 66793), (66754, 66794), (66755, 66795),
  (66756, 66796), (66757, 66797), (66758, 66798), (66759, 66799), (66760, 66800), (66761, 66801), (66762, 66802), (66763, 66803),
  (66764, 66804), (66765, 66805), (66766, 66806), (66767, 66807), (66768, 66808), (66769, 66809), (66770, 66810), (66771, 66811),
  (66928, 66967), (66929, 66968), (66930, 66969), (66931, 66970), (66932, 66971), (66933, 66972), (66934, 66973), (66935, 66974),
  (66936, 66975), (66937, 66976), (66938, 66977), (66940, 66979), (66941, 66980), (66942, 66981), (66943, 66982), (66944, 66983),
  (66945, 66984), (66946, 66985), (66947, 66986), (66948, 66987), (66949, 66988), (66950, 66989), (66951, 66990), (66952, 66991),
  (66953, 66992), (66954, 66993), (66956, 66995), (66957, 66996), (66958, 66997), (66959, 66998), (66960, 66999), (66961, 67000),
  (66962, 67001), (66964, 67003), (66965, 67004), (68736, 68800), (68737, 68801), (68738, 68802), (68739, 68803), (68740, 68804),
  (68741, 68805), (68742, 68806), (68743, 68807), (68744, 68808), (68745, 68809), (68746, 68810), (68747, 68811), (68748, 68812),
  (68749, 68813), (68750, 68814), (68751, 68815), (68752, 68816), (68753, 68817), (68754, 68818), (68755, 68819), (68756, 68820),
  (68757, 68821), (68758, 68822), (68759, 68823), (68760, 68824), (68761, 68825), (68762, 68826), (68763, 68827), (68764, 68828),
  (68765, 68829), (68766, 68830), (68767, 68831), (68768, 68832), (68769, 68833), (68770, 68834), (68771, 68835), (68772, 68836),
  (68773, 68837), (68774, 68838), (68775, 68839), (68776, 68840), (68777, 68841), (68778, 68842), (68779, 68843), (68780, 68844),
  (68781, 68845), (68782, 68846), (68783, 68847), (68784, 68848), (68785, 68849), (68786, 68850), (71840, 71872), (71841, 71873),
  (71842, 71874), (71843, 71875), (71844, 71876), (71845, 71877), (71846, 71878), (71847, 71879), (71848, 71880), (71849, 71881),
  (71850, 71882), (71851, 71883), (71852, 71884), (71853, 71885), (71854, 71886), (71855, 71887), (71856, 71888), (71857, 71889),
  (71858, 71890), (71859, 71891), (71860, 71892), (71861, 71893), (71862, 71894), (71863, 71895), (71864, 71896), (71865, 71897),
  (71866, 71898), (71867, 71899), (71868, 71900), (71869, 71901), (71870, 71902), (71871, 71903), (93760, 93792), (93761, 93793),
  (93762, 93794), (93763, 93795), (93764, 93796), (93765, 93797), (93766, 93798), (93767, 93799), (93768, 93800), (93769, 93801),
  (93770, 93802), (93771, 93803), (93772, 93804), (93773, 93805), (93774, 93806), (93775, 93807), (93776, 93808), (93777, 93809),
  (93778, 93810), (93779, 93811), (93780, 93812), (93781, 93813), (93782, 93814), (93783, 93815), (93784, 93816), (93785, 93817),
  (93786, 93818), (93787, 93819), (93788, 93820), (93789, 93821), (93790, 93822), (93791, 93823), (125184, 125218), (125185, 125219),
  (125186, 125220), (125187, 125221), (125188, 125222), (125189, 125223), (125190, 125224), (125191, 125225), (125192, 125226), (125193, 125227),
  (125194, 125228), (125195, 125229), (125196, 125230), (125197, 125231), (125198, 125232), (125199, 125233), (125200, 125234), (125201, 125235),
  (125202, 125236), (125203, 125237), (125204, 125238), (125205, 125239), (125206, 125240), (125207, 125241), (125208, 125242), (125209, 125243),
  (125210, 125244), (125211, 125245), (125212, 125246), (125213, 125247), (125214, 125248), (125215, 125249), (125216, 125250), (125217, 125251)]

/-- Inclusive codepoint ranges of the Unicode `Cased` property
(`Lowercase` or `Uppercase` or general category `Lt`), consulted by the
final-sigma context scan of `str::to_lowercase`. -/
def casedRanges : List (Nat × Nat) := [
  (65, 90), (97, 122), (170, 170), (181, 181), (186, 186), (192, 214), (216, 246), (248, 442),
  (444, 447), (452, 659), (661, 696), (704, 705), (736, 740), (837, 837), (880, 883), (886, 887),
  (890, 893), (895, 895), (902, 902), (904, 906), (908, 908), (910, 929), (931, 1013), (1015, 1153),
  (1162, 1327), (1329, 1366), (1376, 1416), (4256, 4293), (4295, 4295), (4301, 4301), (4304, 4346), (4349, 4351),
  (5024, 5109), (5112, 5117), (7296, 7304), (7312, 7354), (7357, 7359), (7424, 7615), (7680, 7957), (7960, 7965),
  (7968, 8005), (8008, 8013), (8016, 8023), (8025, 8025), (8027, 8027), (8029, 8029), (8031, 8061), (8064, 8116),
  (8118, 8124), (8126, 8126), (8130, 8132), (8134, 8140), (8144, 8147), (8150, 8155), (8160, 8172), (8178, 8180),
  (8182, 8188), (8305, 8305), (8319, 8319), (8336, 8348), (8450, 8450), (8455, 8455), (8458, 8467), (8469, 8469),
  (8473, 8477), (8484, 8484), (8486, 8486), (8488, 8488), (8490, 8493), (8495, 8500), (8505, 8505), (8508, 8511),
  (8517, 8521), (8526, 8526), (8544, 8575), (8579, 8580), (9398, 9449), (11264, 11492), (11499, 11502), (11506, 11507),
  (11520, 11557), (11559, 11559), (11565, 11565), (42560, 42605), (42624, 42653), (42786, 42887), (42891, 42894), (42896, 42954),
  (42960, 42961), (42963, 42963), (42965, 42969), (42997, 42998), (43000, 43002), (43824, 43866), (43868, 43880), (43888, 43967),
  (64256, 64262), (64275, 64279), (65313, 65338), (65345, 65370), (66560, 66639), (66736, 66771), (66776, 66811), (66928, 66938),
  (66940, 66954), (66956, 66962), (66964, 66965), (66967, 66977), (66979, 66993), (66995, 67001), (67003, 67004), (67456, 67456),
  (67459, 67461), (67463, 67504), (67506, 67514), (68736, 68786), (68800, 68850), (71840, 71903), (93760, 93823), (119808, 119892),
  (119894, 119964), (119966, 119967), (119970, 119970), (119973, 119974), (119977, 119980), (119982, 119993), (119995, 119995), (119997, 120003),
  (120005, 120069), (120071, 120074), (120077, 120084), (120086, 120092), (120094, 120121), (120123, 120126), (120128, 120132), (120134, 120134),
  (120138, 120144), (120146, 120485), (120488, 120512), (120514, 120538), (120540, 120570), (120572, 120596), (120598, 120628), (120630, 120654),
  (120656, 120686), (120688, 120712), (120714, 120744), (120746, 120770), (120772, 120779), (122624, 122633), (122635, 122654), (125184, 125251),
  (127280, 127305), (127312, 127337), (127344, 127369)]

/-- Inclusive codepoint ranges of the Unicode `Case_Ignorable` property,
the characters skipped by the final-sigma context scan of
`str::to_lowercase`. -/
def caseIgnorableRanges : List (Nat × Nat) := [
  (39, 39), (46, 46), (58, 58), (94, 94), (96, 96), (168, 168), (173, 173), (175, 175),
  (180, 180), (183, 184), (688, 879), (884, 885), (890, 890), (900, 901), (903, 903), (1155, 1161),
  (1369, 1369), (1375, 1375), (1425, 1469), (1471, 1471), (1473, 1474), (1476, 1477), (1479, 1479), (1524, 1524),
  (1536, 1541), (1552, 1562), (1564, 1564), (1600, 1600), (1611, 1631), (1648, 1648), (1750, 1757), (1759, 1768),
  (1770, 1773), (1807, 1807), (1809, 1809), (1840, 1866), (1958, 1968), (2027, 2037), (2042, 2042), (2045, 2045),
  (2070, 2093), (2137, 2139), (2184, 2184), (2192, 2193), (2200, 2207), (2249, 2306), (2362, 2362), (2364, 2364),
  (2369, 2376), (2381, 2381), (2385, 2391), (2402, 2403), (2417, 2417), (2433, 2433), (2492, 2492), (2497, 2500),
  (2509, 2509), (2530, 2531), (2558, 2558), (2561, 2562), (2620, 2620), (2625, 2626), (2631, 2632), (2635, 2637),
  (2641, 2641), (2672, 2673), (2677, 2677), (2689, 2690), (2748, 2748), (2753, 2757), (2759, 2760), (2765, 2765),
  (2786, 2787), (2810, 2815), (2817, 2817), (2876, 2876), (2879, 2879), (2881, 2884), (2893, 2893), (2901, 2902),
  (2914, 2915), (2946, 2946), (3008, 3008), (3021, 3021), (3072, 3072), (3076, 3076), (3132, 3132), (3134, 3136),
  (3142, 3144), (3146, 3149), (3157, 3158), (3170, 3171), (3201, 3201), (3260, 3260), (3263, 3263), (3270, 3270),
  (3276, 3277), (3298, 3299), (3328, 3329), (3387, 3388), (3393, 3396), (3405, 3405), (3426, 3427), (3457, 3457),
  (3530, 3530), (3538, 3540), (3542, 3542), (3633, 3633), (3636, 3642), (3654, 3662), (3761, 3761), (3764, 3772),
  (3782, 3782), (3784, 3789), (3864, 3865), (3893, 3893), (3895, 3895), (3897, 3897), (3953, 3966), (3968, 3972),
  (3974, 3975), (3981, 3991), (3993, 4028), (4038, 4038), (4141, 4144), (4146, 4151), (4153, 4154), (4157, 4158),
  (4184, 4185), (4190, 4192), (4209, 4212), (4226, 4226), (4229, 4230), (4237, 4237), (4253, 4253), (4348, 4348),
  (4957, 4959), (5906, 5908), (5938, 5939), (5970, 5971), (6002, 6003), (6068, 6069), (6071, 6077), (6086, 6086),
  (6089, 6099), (6103, 6103), (6109, 6109), (6155, 6159), (6211, 6211), (6277, 6278), (6313, 6313), (6432, 6434),
  (6439, 6440), (6450, 6450), (6457, 6459), (6679, 6680), (6683, 6683), (6742, 6742), (6744, 6750), (6752, 6752),
  (6754, 6754), (6757, 6764), (6771, 6780), (6783, 6783), (6823, 6823), (6832, 6862), (6912, 6915), (6964, 6964),
  (6966, 6970), (6972, 6972), (6978, 6978), (7019, 7027), (7040, 7041), (7074, 7077), (7080, 7081), (7083, 7085),
  (7142, 7142), (7144, 7145), (7149, 7149), (7151, 7153), (7212, 7219), (7222, 7223), (7288, 7293), (7376, 7378),
  (7380, 7392), (7394, 7400), (7405, 7405), (7412, 7412), (7416, 7417), (7468, 7530), (7544, 7544), (7579, 7679),
  (8125, 8125), (8127, 8129), (8141, 8143), (8157, 8159), (8173, 8175), (8189, 8190), (8203, 8207), (8216, 8217),
  (8228, 8228), (8231, 8231), (8234, 8238), (8288, 8292), (8294, 8303), (8305, 8305), (8319, 8319), (8336, 8348),
  (8400, 8432), (11388, 11389), (11503, 11505), (11631, 11631), (11647, 11647), (11744, 11775), (11823, 11823), (12293, 12293),
  (12330, 12333), (12337, 12341), (12347, 12347), (12441, 12446), (12540, 12542), (40981, 40981), (42232, 42237), (42508, 42508),
  (42607, 42610), (42612, 42621), (42623, 42623), (42652, 42655), (42736, 42737), (42752, 42785), (42864, 42864), (42888, 42890),
  (42994, 42996), (43000, 43001), (43010, 43010), (43014, 43014), (43019, 43019), (43045, 43046), (43052, 43052), (43204, 43205),
  (43232, 43249), (43263, 43263), (43302, 43309), (43335, 43345), (43392, 43394), (43443, 43443), (43446, 43449), (43452, 43453),
  (43471, 43471), (43493, 43494), (43561, 43566), (43569, 43570), (43573, 43574), (43587, 43587), (43596, 43596), (43632, 43632),
  (43644, 43644), (43696, 43696), (43698, 43700), (43703, 43704), (43710, 43711), (43713, 43713), (43741, 43741), (43756, 43757),
  (43763, 43764), (43766, 43766), (43867, 43871), (43881, 43883), (44005, 44005), (44008, 44008), (44013, 44013), (64286, 64286),
  (64434, 64450), (65024, 65039), (65043, 65043), (65056, 65071), (65106, 65106), (65109, 65109), (65279, 65279), (65287, 65287),
  (65294, 65294), (65306, 65306), (65342, 65342), (65344, 65344), (65392, 65392), (65438, 65439), (65507, 65507), (65529, 65531),
  (66045, 66045), (66272, 66272), (66422, 66426), (67456, 67461), (67463, 67504), (67506, 67514), (68097, 68099), (68101, 68102),
  (68108, 68111), (68152, 68154), (68159, 68159), (68325, 68326), (68900, 68903), (69291, 69292), (69446, 69456), (69506, 69509),
  (69633, 69633), (69688, 69702), (69744, 69744), (69747, 69748), (69759, 69761), (69811, 69814), (69817, 69818), (69821, 69821),
  (69826, 69826), (69837, 69837), (69888, 69890), (69927, 69931), (69933, 69940), (70003, 70003), (70016, 70017), (70070, 70078),
  (70089, 70092), (70095, 70095), (70191, 70193), (70196, 70196), (70198, 70199), (70206, 70206), (70367, 70367), (70371, 70378),
  (70400, 70401), (70459, 70460), (70464, 70464), (70502, 70508), (70512, 70516), (70712, 70719), (70722, 70724), (70726, 70726),
  (70750, 70750), (70835, 70840), (70842, 70842), (70847, 70848), (70850, 70851), (71090, 71093), (71100, 71101), (71103, 71104),
  (71132, 71133), (71219, 71226), (71229, 71229), (71231, 71232), (71339, 71339), (71341, 71341), (71344, 71349), (71351, 71351),
  (71453, 71455), (71458, 71461), (71463, 71467), (71727, 71735), (71737, 71738), (71995, 71996), (71998, 71998), (72003, 72003),
  (72148, 72151), (72154, 72155), (72160, 72160), (72193, 72202), (72243, 72248), (72251, 72254), (72263, 72263), (72273, 72278),
  (72281, 72283), (72330, 72342), (72344, 72345), (72752, 72758), (72760, 72765), (72767, 72767), (72850, 72871), (72874, 72880),
  (72882, 72883), (72885, 72886), (73009, 73014), (73018, 73018), (73020, 73021), (73023, 73029), (73031, 73031), (73104, 73105),
  (73109, 73109), (73111, 73111), (73459, 73460), (78896, 78904), (92912, 92916), (92976, 92982), (92992, 92995), (94031, 94031),
  (94095, 94111), (94176, 94177), (94179, 94180), (110576, 110579), (110581, 110587), (110589, 110590), (113821, 113822), (113824, 113827),
  (118528, 118573), (118576, 118598), (119143, 119145), (119155, 119170), (119173, 119179), (119210, 119213), (119362, 119364), (121344, 121398),
  (121403, 121452), (121461, 121461), (121476, 121476), (121499, 121503), (121505, 121519), (122880, 122886), (122888, 122904), (122907, 122913),
  (122915, 122916), (122918, 122922), (123184, 123197), (123566, 123566), (123628, 123631), (125136, 125142), (125252, 125259), (127995, 127999),
  (917505, 917505), (917536, 917631), (917760, 917999)]

/-- Whether a character has the Unicode `Cased` property. -/
def isCased (c : Char) : Bool :=
  casedRanges.any (fun p => p.1 ≤ c.toNat && c.toNat ≤ p.2)

/-- Whether a character has the Unicode `Case_Ignorable` property. -/
def isCaseIgnorable (c : Char) : Bool :=
  caseIgnorableRanges.any (fun p => p.1 ≤ c.toNat && c.toNat ≤ p.2)

/-- Scans past `Case_Ignorable` characters and tells whether the first
other character is `Cased` (Rust `case_ignorable_then_cased`, the two
context conditions of the Final_Sigma rule). -/
def caseIgnorableThenCased (cs : List Char) : Bool :=
  match cs.dropWhile isCaseIgnorable with
  | c :: _ => isCased c
  | [] => false

/-- The Final_Sigma condition of `str::to_lowercase` for an occurrence of
U+03A3: `before` lists the preceding characters nearest first, `after` the
following characters in order. -/
def isFinalSigma (before after : List Char) : Bool :=
  caseIgnorableThenCased before && ! caseIgnorableThenCased after

/-- Models Rust `char::to_lowercase`: the full per-character Unicode
lowercase mapping, where U+0130 expands to U+0069 followed by U+0307 and
unmapped characters are returned unchanged. -/
def charToLowercase (c : Char) : List Char :=
  if c.toNat = 304 then [Char.ofNat 105, Char.ofNat 775]
  else
    match lowerTable.find? (fun p => p.1 == c.toNat) with
    | some p => [Char.ofNat p.2]
    | none => [c]

/-- Walks the string keeping the reversed prefix at hand, lowercasing each
character and applying the Final_Sigma rule to each capital sigma U+03A3
(which becomes U+03C2 in word-final position and U+03C3 otherwise). -/
def toLowercaseGo (before : List Char) : List Char → List Char
  | [] => []
  | c :: rest =>
    (if c.toNat = 931 then
      (if isFinalSigma before rest then [Char.ofNat 962] else [Char.ofNat 963])
    else charToLowercase c) ++ toLowercaseGo (c :: before) rest

/-- Models Rust `str::to_lowercase` (the code's full-string lowercase
transform): the full Unicode per-character lowercase mapping together with
the context-sensitive Final_Sigma rule. -/
def to_lowercase (s : List Char) : List Char :=
  toLowercaseGo [] s

/-- Models `search` from src/lib.rs: `contents.lines().filter(|line|
line.contains(query)).collect()`. -/
def search (query contents : List Char) : List (List Char) :=
  (rustLines contents).filter (fun line => decide (query <:+: line))

/-- Models `search_case_insensitive` from src/lib.rs: the query is lowercased
once, each line is lowercased for the containment check, and the original
line is the one collected. -/
def search_case_insensitive (query contents : List Char) : List (List Char) :=
  (rustLines contents).filter
    (fun line => decide (to_lowercase query <:+: to_lowercase line))

/-- Models the `Config` struct from src/lib.rs. -/
structure Config where
  query : List Char
  file_path : List Char
  ignore_case : Bool
  case_sensitive : Bool
  line_number : Bool
  replace : List Char
deriving DecidableEq

/-- Models `Config::find_case_sensitive`: any remaining argument equals
`-s` or `--case-sensitive`. -/
def Config.find_case_sensitive (args : List (List Char)) : Bool :=
  args.any (fun arg => arg == "-s".data || arg == "--case-sensitive".data)

/-- Models `Config::find_ignore_case`: if the `IGNORE_CASE` environment
variable is set its value is compared to `"1"`, otherwise the remaining
arguments are scanned for `-i` or `--ignore-case`. -/
def Config.find_ignore_case (env : Option (List Char)) (args : List (List Char)) : Bool :=
  match env with
  | some val => val == "1".data
  | none => args.any (fun arg => arg == "-i".data || arg == "--ignore-case".data)

/-- Models `Config::find_line_number`: any remaining argument equals `-n` or
`--line-number`. -/
def Config.find_line_number (args : List (List Char)) : Bool :=
  args.any (fun arg => arg == "-n".data || arg == "--line-number".data)

/-- Models `Config::find_replace`: the element following the first `-r` or
`--replace` argument, or the empty string when the flag is absent or last. -/
def Config.find_replace (args : List (List Char)) : List Char :=
  match args.findIdx? (fun arg => arg == "-r".data || arg == "--replace".data) with
  | some pos => (args[pos + 1]?).getD []
  | none => []

/-- Models `Config::build`: the first argument (program name) is discarded,
the next two become `query` and `file_path` (failing with the source's error
messages when absent), and the rest are scanned for flags. -/
def Config.build (env : Option (List Char)) (argv : List (List Char)) :
    Except String Config :=
  match argv.drop 1 with
  | [] => Except.error "Didn't get a query string"
  | query :: rest =>
    match rest with
    | [] => Except.error "Didn't get a file path"
    | file_path :: args =>
      let case_sensitive := Config.find_case_sensitive args
      let ignore_case := !case_sensitive && Config.find_ignore_case env args
      let line_number := Config.find_line_number args
      let replace := Config.find_replace args
      Except.ok { query := query, file_path := file_path,
                  ignore_case := ignore_case, case_sensitive := case_sensitive,
                  line_number := line_number, replace := replace }

/-- Worker for `str::replace` with a non-empty pattern: scans left to right,
replacing each leftmost non-overlapping occurrence of `q` by `r`. -/
def replaceCore (q r : List Char) : List Char → List Char
  | [] => []
  | c :: cs =>
    if 0 < q.length ∧ q.isPrefixOf (c :: cs) then
      r ++ replaceCore q r (cs.drop (q.length - 1))
    else
      c :: replaceCore q r cs
termination_by s => s.length
decreasing_by
  all_goals simp [List.length_drop]
  omega

/-- Models `str::replace`: all non-overlapping occurrences of `q` in `s` are
replaced by `r`, leftmost first; an empty pattern matches at every character
boundary, so `r` is interleaved before, between and after the characters. -/
def stdReplace (q r s : List Char) : List Char :=
  if q = [] then r ++ s.flatMap (fun c => c :: r)
  else replaceCore q r s

/-- Models `replace` from src/lib.rs: `contents.replace(query, replace)`. -/
def replace (query rep contents : List Char) : List Char :=
  stdReplace query rep contents

/-- Models `replace_if_not_empty` from src/lib.rs. -/
def replace_if_not_empty (config : Config) (line : List Char) : List Char :=
  if config.replace ≠ [] then replace config.query config.replace line
  else line

/-- Models `print_based_on_line_number` from src/lib.rs: the emitted line is
`"{i+1}: {line}"` when line numbering is on, and the line itself otherwise. -/
def print_based_on_line_number (config : Config) (i : Nat) (line : List Char) :
    List Char :=
  if config.line_number then (Nat.repr (i + 1)).data ++ ':' :: ' ' :: line
  else line

/-- Models `search_based_on_case` from src/lib.rs. -/
def search_based_on_case (config : Config) (contents : List Char) :
    List (List Char) :=
  if config.ignore_case then search_case_insensitive config.query contents
  else search config.query contents

/-- Models the printing loop of `run` from src/lib.rs: the ordered list of
lines written to standard output for the given file contents. -/
def runLines (config : Config) (contents : List Char) : List (List Char) :=
  (search_based_on_case config contents).enum.map
    (fun p => print_based_on_line_number config p.1 (replace_if_not_empty config p.2))

/-- Modelled from the spec: the index of the leftmost occurrence of `q` in
`s`, or `none` when `q` does not occur in `s`. -/
def firstOccurrence (q : List Char) : List Char → Option Nat
  | [] => if q.isPrefixOf [] then some 0 else none
  | c :: cs =>
    if q.isPrefixOf (c :: cs) then some 0
    else (firstOccurrence q cs).map (fun n => n + 1)

/-- Modelled from the spec: leftmost-first non-overlapping literal
replacement — find the leftmost occurrence of `q`, splice in `r`, and
continue after it; an empty pattern is replaced at every boundary as in
`str::replace`. -/
def specReplaceAll (q r s : List Char) : List Char :=
  if hq : q = [] then r ++ s.flatMap (fun c => c :: r)
  else
    match h : firstOccurrence q s with
    | none => s
    | some i => s.take i ++ r ++ specReplaceAll q r (s.drop (i + q.length))
termination_by s.length
decreasing_by
  have key : ∀ (t : List Char) (j : Nat),
      firstOccurrence q t = some j → q.isPrefixOf (t.drop j) = true := by
    intro t
    induction t with
    | nil =>
      intro j hj
      simp only [firstOccurrence] at hj
      split at hj
      · cases hj
        simpa using ‹q.isPrefixOf [] = true›
      · cases hj
    | cons c cs ih =>
      intro j hj
      simp only [firstOccurrence] at hj
      split at hj
      · cases hj
        simpa using ‹q.isPrefixOf (c :: cs) = true›
      · rcases Option.map_eq_some'.mp hj with ⟨j', hj', rfl⟩
        rw [List.drop_succ_cons]
        exact ih j' hj'
  have hp := List.isPrefixOf_iff_prefix.mp (key s i h)
  have h1 := hp.length_le
  have h2 : 0 < q.length := List.length_pos.mpr hq
  simp only [List.length_drop] at h1 ⊢
  omega

/-- Concrete case-sensitive configuration used as a witness input. -/
def cfgC1 : Config :=
  { query := "duct".data, file_path := "poem.txt".data, ignore_case := false,
    case_sensitive := false, line_number := false, replace := [] }

/-- Concrete case-insensitive configuration used as a witness input. -/
def cfgC2 : Config :=
  { query := "rUsT".data, file_path := "poem.txt".data, ignore_case := true,
    case_sensitive := false, line_number := false, replace := [] }

/-- Concrete argument vector carrying both `-s` and `-i`. -/
def argvSI : List (List Char) :=
  ["kkjgrep".data, "q".data, "poem.txt".data, "-s".data, "-i".data]

/-- The configuration `Config.build` produces from `argvSI`. -/
def cfgSI : Config :=
  { query := "q".data, file_path := "poem.txt".data, ignore_case := false,
    case_sensitive := true, line_number := false, replace := [] }

/-- Concrete argument vector carrying `-i` only. -/
def argvI : List (List Char) :=
  ["kkjgrep".data, "q".data, "poem.txt".data, "-i".data]

/-- The configuration `Config.build` produces from `argvI` when
`IGNORE_CASE` is set to `"2"`. -/
def cfgI2 : Config :=
  { query := "q".data, file_path := "poem.txt".data, ignore_case := false,
    case_sensitive := false, line_number := false, replace := [] }

/-- The configuration `Config.build` produces from `argvI` when
`IGNORE_CASE` is unset. -/
def cfgI : Config :=
  { query := "q".data, file_path := "poem.txt".data, ignore_case := true,
    case_sensitive := false, line_number := false, replace := [] }

/-- Concrete argument vector with no flags. -/
def argvPlain : List (List Char) :=
  ["kkjgrep".data, "q".data, "poem.txt".data]

/-- The configuration `Config.build` produces from `argvPlain` when
`IGNORE_CASE` is set to `"1"`. -/
def cfgEnv1 : Config :=
  { query := "q".data, file_path := "poem.txt".data, ignore_case := true,
    case_sensitive := false, line_number := false, replace := [] }

/-- Concrete argument vector whose query argument is the empty string. -/
def argvEmptyQuery : List (List Char) :=
  ["kkjgrep".data, [], "poem.txt".data]

/-- The configuration `Config.build` produces from `argvEmptyQuery`: it is
accepted, with an empty `query`. -/
def cfgEmptyQuery : Config :=
  { query := [], file_path := "poem.txt".data, ignore_case := false,
    case_sensitive := false, line_number := false, replace := [] }

/-- Concrete line-numbering configuration used as a witness input. -/
def cfgNum : Config :=
  { query := "a".data, file_path := "poem.txt".data, ignore_case := false,
    case_sensitive := false, line_number := true, replace := [] }

/-- Concrete argument vector where the element after `-r` is the flag
token `-n`. -/
def argvRN : List (List Char) :=
  ["kkjgrep".data, "needle".data, "poem.txt".data, "-r".data, "-n".data]

/-- The configuration `Config.build` produces from `argvRN`: the `-n` after
`-r` is used as the replacement value and still turns line numbering on. -/
def cfgRN : Config :=
  { query := "needle".data, file_path := "poem.txt".data, ignore_case := false,
    case_sensitive := false, line_number := true, replace := "-n".data }

/-- Stripping a trailing carriage return commutes with a cons onto a
non-empty list. -/
theorem stripCR_cons (c : Char) (l : List Char) (h : l ≠ []) :
    stripCR (c :: l) = c :: stripCR l := by
  cases l with
  | nil => exact absurd rfl h
  | cons d t => simp [stripCR]

/-- Splitting a newline-terminated first line: `rustLines` cuts at the
`'\n'`, normalising a `'\r'` just before it. -/
theorem rustLines_append_newline (l rest : List Char) (h : '\n' ∉ l) :
    rustLines (l ++ '\n' :: rest) = stripCR l :: rustLines rest := by
  induction l with
  | nil => simp [rustLines, stripCR]
  | cons c l' ih =>
    have hc : ¬ c = '\n' := fun hcc => h (by simp [hcc])
    have hl' : '\n' ∉ l' := fun hm => h (List.mem_cons_of_mem _ hm)
    have ihe := ih hl'
    by_cases hr : c = '\r'
    · subst hr
      cases l' with
      | nil => simp [rustLines, stripCR]
      | cons d t =>
        have hd : ¬ d = '\n' := fun hdd => hl' (by simp [hdd])
        simp only [List.cons_append] at ihe ⊢
        rw [show rustLines ('\r' :: d :: (t ++ '\n' :: rest))
              = consHead '\r' (rustLines (d :: (t ++ '\n' :: rest))) by
            simp [rustLines, hd]]
        rw [ihe, stripCR_cons '\r' (d :: t) (by simp)]
        rfl
    · cases l' with
      | nil => simp [rustLines, consHead, stripCR, hc, hr]
      | cons d t =>
        simp only [List.cons_append] at ihe ⊢
        rw [show rustLines (c :: d :: (t ++ '\n' :: rest))
              = consHead c (rustLines (d :: (t ++ '\n' :: rest))) by
            simp [rustLines, hc, hr]]
        rw [ihe, stripCR_cons c (d :: t) (by simp)]
        rfl

/-- A non-empty tail of content with no newline forms a single final line,
kept verbatim (in particular a trailing lone `'\r'` is retained). -/
theorem rustLines_single (s : List Char) (h : '\n' ∉ s) (hne : s ≠ []) :
    rustLines s = [s] := by
  induction s with
  | nil => exact absurd rfl hne
  | cons c cs ih =>
    have hc : ¬ c = '\n' := fun hcc => h (by simp [hcc])
    have hcs : '\n' ∉ cs := fun hm => h (List.mem_cons_of_mem _ hm)
    cases cs with
    | nil =>
      by_cases hr : c = '\r'
      · subst hr
        simp [rustLines, consHead]
      · simp [rustLines, consHead, hc, hr]
    | cons d t =>
      have hd : ¬ d = '\n' := fun hdd => hcs (by simp [hdd])
      have ihe := ih hcs (by simp)
      by_cases hr : c = '\r'
      · subst hr
        rw [show rustLines ('\r' :: d :: t) = consHead '\r' (rustLines (d :: t)) by
            simp [rustLines, hd]]
        rw [ihe]
        rfl
      · rw [show rustLines (c :: d :: t) = consHead c (rustLines (d :: t)) by
            simp [rustLines, hc, hr]]
        rw [ihe]
        rfl

/-- C9: the engine's line splitting yields the newline-delimited lines in
order: every `'\n'`-terminated block becomes one line with a single
carriage return before the terminator removed (so `\r\n` also separates),
a trailing terminator produces no empty final line, and a final unterminated
non-empty block becomes one last line. -/
theorem c9 :
    (∀ L : List (List Char), (∀ l ∈ L, '\n' ∉ l) →
      rustLines (L.flatMap (fun l => l ++ ['\n'])) = L.map stripCR)
    ∧ (∀ (L : List (List Char)) (s : List Char), (∀ l ∈ L, '\n' ∉ l) →
        '\n' ∉ s → s ≠ [] →
      rustLines (L.flatMap (fun l => l ++ ['\n']) ++ s) = L.map stripCR ++ [s]) := by
  constructor
  · intro L hL
    induction L with
    | nil => simp [rustLines]
    | cons l L ih =>
      rw [List.flatMap_cons, List.append_assoc, List.singleton_append,
        rustLines_append_newline l _ (hL l (List.mem_cons_self _ _)),
        List.map_cons, ih (fun x hx => hL x (List.mem_cons_of_mem _ hx))]
  · intro L s hL hs hsne
    induction L with
    | nil => simpa using rustLines_single s hs hsne
    | cons l L ih =>
      rw [List.flatMap_cons, List.append_assoc, List.append_assoc,
        List.singleton_append,
        rustLines_append_newline l _ (hL l (List.mem_cons_self _ _)),
        List.map_cons]
      rw [ih (fun x hx => hL x (List.mem_cons_of_mem _ hx))]
      rfl

/-- Witness for C9 at concrete content: `"ab\ncd\r\n"` splits into the two
lines `"ab"` and `"cd"`. -/
theorem c9_witness :
    rustLines (([ "ab".data, "cd\r".data ].flatMap (fun l => l ++ ['\n'])))
      = [ "ab".data, "cd\r".data ].map stripCR :=
  c9.1 ["ab".data, "cd\r".data] (by decide)

/-- C1: with case-insensitive matching off, the search is exactly the
filter of the file's lines by literal substring containment of the query:
it equals that filter, is a subsequence of the lines in original order, and
a line is returned iff it is a line of the file containing the query. -/
theorem c1 (config : Config) (contents : List Char)
    (h : config.ignore_case = false) :
    search_based_on_case config contents
      = (rustLines contents).filter (fun line => decide (config.query <:+: line))
    ∧ (search_based_on_case config contents).Sublist (rustLines contents)
    ∧ ∀ line, line ∈ search_based_on_case config contents ↔
        line ∈ rustLines contents ∧ config.query <:+: line := by
  have he : search_based_on_case config contents
      = (rustLines contents).filter (fun line => decide (config.query <:+: line)) := by
    simp [search_based_on_case, h, search]
  refine ⟨he, ?_, ?_⟩
  · rw [he]
    exact List.filter_sublist _
  · intro line
    rw [he]
    simp [List.mem_filter]

/-- Witness for C1: on the poem contents, the case-sensitive search result
is a subsequence of the file's lines. -/
theorem c1_witness :
    cfgC1.ignore_case = false
    ∧ (search_based_on_case cfgC1
          "Rust:\nsafe, fast, productive.\nPick three.".data).Sublist
        (rustLines "Rust:\nsafe, fast, productive.\nPick three.".data) :=
  ⟨rfl, (c1 cfgC1 "Rust:\nsafe, fast, productive.\nPick three.".data rfl).2.1⟩

/-- C2: with case-insensitive matching on, the search is exactly the filter
of the file's lines by lowercased containment of the lowercased query, the
kept lines are the original lines in original order, and (with replacement
and numbering off) they are printed verbatim. -/
theorem c2 (config : Config) (contents : List Char)
    (h : config.ignore_case = true) :
    search_based_on_case config contents
      = (rustLines contents).filter
          (fun line => decide (to_lowercase config.query <:+: to_lowercase line))
    ∧ (search_based_on_case config contents).Sublist (rustLines contents)
    ∧ (∀ line, line ∈ search_based_on_case config contents ↔
        line ∈ rustLines contents
          ∧ to_lowercase config.query <:+: to_lowercase line)
    ∧ (config.replace = [] → config.line_number = false →
        runLines config contents = search_based_on_case config contents) := by
  have he : search_based_on_case config contents
      = (rustLines contents).filter
          (fun line => decide (to_lowercase config.query <:+: to_lowercase line)) := by
    simp [search_based_on_case, h, search_case_insensitive]
  refine ⟨he, ?_, ?_, ?_⟩
  · rw [he]
    exact List.filter_sublist _
  · intro line
    rw [he]
    simp [List.mem_filter]
  · intro hrep hln
    simp [runLines, replace_if_not_empty, print_based_on_line_number, hrep, hln,
      List.enum_map_snd]

/-- Witness for C2: on the poem contents, the case-insensitive search result
is a subsequence of the file's (original, non-lowercased) lines. -/
theorem c2_witness :
    cfgC2.ignore_case = true
    ∧ (search_based_on_case cfgC2 "Rust:\nPick three.\nTrust me.".data).Sublist
        (rustLines "Rust:\nPick three.\nTrust me.".data) :=
  ⟨rfl, (c2 cfgC2 "Rust:\nPick three.\nTrust me.".data rfl).2.1⟩

/-- A successful `Config.build` determines every field from the positional
arguments (elements 1 and 2 of the vector) and the flag scans over the
remainder (elements from index 3 on). -/
theorem build_ok_inversion (env : Option (List Char)) (argv : List (List Char))
    (config : Config) (h : Config.build env argv = Except.ok config) :
    ∃ query file_path args, argv.drop 1 = query :: file_path :: args
      ∧ argv.drop 3 = args
      ∧ config.query = query
      ∧ config.file_path = file_path
      ∧ config.case_sensitive = Config.find_case_sensitive args
      ∧ config.ignore_case
          = (!Config.find_case_sensitive args && Config.find_ignore_case env args)
      ∧ config.line_number = Config.find_line_number args
      ∧ config.replace = Config.find_replace args := by
  unfold Config.build at h
  cases hd : argv.drop 1 with
  | nil =>
    rw [hd] at h
    cases h
  | cons query rest =>
    rw [hd] at h
    cases rest with
    | nil => cases h
    | cons file_path args =>
      have h3 : argv.drop 3 = args := by
        have hdd : argv.drop 3 = (argv.drop 1).drop 2 := by
          rw [List.drop_drop]
        rw [hdd, hd]
        rfl
      refine ⟨query, file_path, args, rfl, h3, ?_⟩
      injection h with h2
      subst h2
      exact ⟨rfl, rfl, rfl, rfl, rfl, rfl⟩

/-- Scanning the arguments for either spelling of a flag succeeds exactly
when one of the two spellings is present. -/
theorem any_flag_iff (a b : List Char) (args : List (List Char)) :
    args.any (fun arg => arg == a || arg == b) = true ↔ (a ∈ args ∨ b ∈ args) := by
  rw [List.any_eq_true]
  constructor
  · rintro ⟨x, hx, hb⟩
    have hab : x = a ∨ x = b := by simpa using hb
    rcases hab with h1 | h1
    · subst h1
      exact Or.inl hx
    · subst h1
      exact Or.inr hx
  · rintro (h1 | h1)
    · exact ⟨a, h1, by simp⟩
    · exact ⟨b, h1, by simp⟩

/-- C3: a successfully built configuration never has `case_sensitive` and
`ignore_case` both true, and the presence of `-s` or `--case-sensitive`
among the remaining arguments forces `ignore_case` to false regardless of
the other flags and of the environment variable. -/
theorem c3 (env : Option (List Char)) (argv : List (List Char)) (config : Config)
    (h : Config.build env argv = Except.ok config) :
    (¬ (config.case_sensitive = true ∧ config.ignore_case = true))
    ∧ (("-s".data ∈ argv.drop 3 ∨ "--case-sensitive".data ∈ argv.drop 3) →
        config.ignore_case = false) := by
  obtain ⟨q, f, args, hd, h3, hq, hf, hcs, hic, hln, hrep⟩ :=
    build_ok_inversion env argv config h
  constructor
  · rintro ⟨h1, h2⟩
    rw [hcs] at h1
    rw [hic, h1] at h2
    simp at h2
  · intro hflag
    rw [h3] at hflag
    have hfind : Config.find_case_sensitive args = true :=
      (any_flag_iff "-s".data "--case-sensitive".data args).mpr hflag
    rw [hic, hfind]
    rfl

/-- Witness for C3: with both `-s` and `-i` passed, build succeeds and the
result is case-sensitive, not case-insensitive. -/
theorem c3_witness :
    Config.build none argvSI = Except.ok cfgSI
    ∧ ¬ (cfgSI.case_sensitive = true ∧ cfgSI.ignore_case = true) :=
  ⟨rfl, (c3 none argvSI cfgSI rfl).1⟩

/-- Counterexample to C4: with `IGNORE_CASE` set to `"2"` (a value other
than `"1"`) and `-i` among the remaining arguments, build succeeds with
`ignore_case = false` — the flags are not consulted, contradicting the
claimed fall-back to flag-based detection. -/
theorem c4_counterexample :
    Config.build (some "2".data) argvI = Except.ok cfgI2
    ∧ cfgI2.ignore_case = false
    ∧ cfgI2.case_sensitive = false
    ∧ "-i".data ∈ argvI.drop 3 :=
  ⟨rfl, rfl, rfl, by simp [argvI]⟩

/-- C4 (amended): flag-based detection of `ignore_case` applies only when
`IGNORE_CASE` is unset; when the variable is set to any value other than
`"1"`, `ignore_case` is false regardless of the `-i`/`--ignore-case`
flags. -/
theorem c4_amended (env : Option (List Char)) (argv : List (List Char))
    (config : Config) (h : Config.build env argv = Except.ok config) :
    (env = none →
      (config.ignore_case = true ↔
        (("-i".data ∈ argv.drop 3 ∨ "--ignore-case".data ∈ argv.drop 3)
          ∧ config.case_sensitive = false)))
    ∧ ∀ v, env = some v → v ≠ "1".data → config.ignore_case = false := by
  obtain ⟨q, f, args, hd, h3, hq, hf, hcs, hic, hln, hrep⟩ :=
    build_ok_inversion env argv config h
  constructor
  · rintro rfl
    rw [hic, hcs, h3]
    show (!Config.find_case_sensitive args
        && args.any (fun arg => arg == "-i".data || arg == "--ignore-case".data))
        = true ↔ _
    rw [Bool.and_eq_true, Bool.not_eq_true', any_flag_iff]
    constructor
    · rintro ⟨h1, h2⟩
      exact ⟨h2, h1⟩
    · rintro ⟨h1, h2⟩
      exact ⟨h2, h1⟩
  · rintro v rfl hv
    rw [hic]
    have hb : Config.find_ignore_case (some v) args = (v == "1".data) := rfl
    have hfalse : (v == "1".data) = false := by
      simpa using hv
    rw [hb, hfalse]
    simp

/-- Witness for C4 (amended): with the variable unset and `-i` passed,
`ignore_case` is true via flag-based detection. -/
theorem c4_amended_witness :
    Config.build none argvI = Except.ok cfgI
    ∧ ((none : Option (List Char)) = none →
        (cfgI.ignore_case = true ↔
          (("-i".data ∈ argvI.drop 3 ∨ "--ignore-case".data ∈ argvI.drop 3)
            ∧ cfgI.case_sensitive = false))) :=
  ⟨rfl, (c4_amended none argvI cfgI rfl).1⟩

/-- C5: when the `IGNORE_CASE` environment variable is set, a successful
build's `ignore_case` equals "the value is exactly `\"1\"` and no
case-sensitive flag was given"; the `-i`/`--ignore-case` flags play no
role. -/
theorem c5 (v : List Char) (argv : List (List Char)) (config : Config)
    (h : Config.build (some v) argv = Except.ok config) :
    config.ignore_case = (!config.case_sensitive && decide (v = "1".data)) := by
  obtain ⟨q, f, args, hd, h3, hq, hf, hcs, hic, hln, hrep⟩ :=
    build_ok_inversion (some v) argv config h
  rw [hic, hcs]
  have hb : Config.find_ignore_case (some v) args = (v == "1".data) := rfl
  rw [hb]
  congr 1
  by_cases hv : v = "1".data
  · simp [hv]
  · simp [hv]

/-- Witness for C5: with `IGNORE_CASE=1` and no flags at all (in particular
no `-i`), the built configuration is case-insensitive. -/
theorem c5_witness :
    Config.build (some "1".data) argvPlain = Except.ok cfgEnv1
    ∧ cfgEnv1.ignore_case
        = (!cfgEnv1.case_sensitive && decide ("1".data = "1".data)) :=
  ⟨rfl, c5 "1".data argvPlain cfgEnv1 rfl⟩

/-- Counterexample to C6: `Config.build` accepts an empty string as the
query argument — construction succeeds with `query = ""`, while the claim
demands that construction fail when the query is empty. -/
theorem c6_counterexample :
    Config.build none argvEmptyQuery = Except.ok cfgEmptyQuery
    ∧ cfgEmptyQuery.query = [] :=
  ⟨rfl, rfl⟩

/-- C6 (amended): `Config.build` succeeds exactly when at least three
arguments (program name, query, file path) are present; it performs no
emptiness check, so empty query or file path strings are accepted. -/
theorem c6_amended (env : Option (List Char)) (argv : List (List Char)) :
    (∃ config, Config.build env argv = Except.ok config) ↔ 3 ≤ argv.length := by
  rcases argv with _ | ⟨a, _ | ⟨b, _ | ⟨c, rest⟩⟩⟩
  · simp [Config.build]
  · simp [Config.build]
  · simp [Config.build]
  · constructor
    · intro _
      simp [List.length_cons]
    · intro _
      exact ⟨_, rfl⟩

/-- Unfolding `specReplaceAll` when the pattern does not occur. -/
theorem specReplaceAll_of_none (q r s : List Char) (hq : ¬ q = [])
    (h : firstOccurrence q s = none) : specReplaceAll q r s = s := by
  rw [specReplaceAll.eq_def, dif_neg hq]
  split
  · rfl
  · rename_i i heq
    rw [h] at heq
    cases heq

/-- Unfolding `specReplaceAll` at the leftmost occurrence. -/
theorem specReplaceAll_of_some (q r s : List Char) (hq : ¬ q = []) (i : Nat)
    (h : firstOccurrence q s = some i) :
    specReplaceAll q r s
      = s.take i ++ r ++ specReplaceAll q r (s.drop (i + q.length)) := by
  rw [specReplaceAll.eq_def, dif_neg hq]
  split
  · rename_i heq
    rw [h] at heq
    cases heq
  · rename_i j heq
    rw [h] at heq
    cases heq
    rfl

/-- The code's left-to-right replacement scan computes exactly the spec's
leftmost-first non-overlapping replacement (non-empty pattern). -/
theorem replaceCore_eq_specReplaceAll (q r : List Char) (hq : ¬ q = []) :
    ∀ s : List Char, replaceCore q r s = specReplaceAll q r s := by
  have hq0 : 0 < q.length := List.length_pos.mpr hq
  obtain ⟨k, hk⟩ : ∃ k, q.length = k + 1 := ⟨q.length - 1, by omega⟩
  have hfonil : firstOccurrence q ([] : List Char) = none := by
    cases q with
    | nil => exact absurd rfl hq
    | cons a as => simp [firstOccurrence, List.isPrefixOf]
  have main : ∀ (n : Nat) (s : List Char), s.length ≤ n →
      replaceCore q r s = specReplaceAll q r s := by
    intro n
    induction n with
    | zero =>
      intro s hs
      have hnil : s = [] := List.length_eq_zero.mp (Nat.le_zero.mp hs)
      subst hnil
      rw [specReplaceAll_of_none q r [] hq hfonil]
      simp [replaceCore]
    | succ n ih =>
      intro s hs
      cases s with
      | nil =>
        rw [specReplaceAll_of_none q r [] hq hfonil]
        simp [replaceCore]
      | cons c cs =>
        have hs' : cs.length ≤ n := by simpa using hs
        by_cases hp : q.isPrefixOf (c :: cs) = true
        · have hfo : firstOccurrence q (c :: cs) = some 0 := by
            simp [firstOccurrence, hp]
          rw [specReplaceAll_of_some q r (c :: cs) hq 0 hfo]
          rw [show replaceCore q r (c :: cs)
                = r ++ replaceCore q r (cs.drop (q.length - 1)) by
              simp only [replaceCore]
              rw [if_pos ⟨hq0, hp⟩]]
          rw [List.take_zero, List.nil_append, Nat.zero_add, hk,
            Nat.add_sub_cancel, List.drop_succ_cons]
          rw [ih (cs.drop k) (le_trans (by simp) hs')]
        · have hpf : q.isPrefixOf (c :: cs) = false := Bool.eq_false_iff.mpr hp
          have hfo : firstOccurrence q (c :: cs)
              = (firstOccurrence q cs).map (fun n => n + 1) := by
            simp [firstOccurrence, hpf]
          have hstep : replaceCore q r (c :: cs) = c :: replaceCore q r cs := by
            simp only [replaceCore]
            rw [if_neg (by simp [hpf])]
          rw [hstep, ih cs hs']
          cases hfoc : firstOccurrence q cs with
          | none =>
            rw [specReplaceAll_of_none q r cs hq hfoc,
              specReplaceAll_of_none q r (c :: cs) hq (by rw [hfo, hfoc]; rfl)]
          | some j =>
            rw [specReplaceAll_of_some q r cs hq j hfoc,
              specReplaceAll_of_some q r (c :: cs) hq (j + 1)
                (by rw [hfo, hfoc]; rfl)]
            rw [List.take_succ_cons,
              show j + 1 + q.length = (j + q.length) + 1 by omega,
              List.drop_succ_cons]
            simp
  intro s
  exact main s.length s le_rfl

/-- The modelled `str::replace` equals the spec's leftmost-first
non-overlapping replacement for every pattern, the empty one included. -/
theorem stdReplace_eq_specReplaceAll (q r s : List Char) :
    stdReplace q r s = specReplaceAll q r s := by
  by_cases hq : q = []
  · rw [stdReplace, if_pos hq, specReplaceAll.eq_def, dif_pos hq]
  · rw [stdReplace, if_neg hq]
    exact replaceCore_eq_specReplaceAll q r hq s

/-- C7: the per-line transformation of the printing loop replaces, when
`config.replace` is non-empty, every non-overlapping occurrence of the
original-case `config.query` leftmost-first by `config.replace` (whatever
the case policy used for matching), and emits the line unchanged when
`config.replace` is empty. -/
theorem c7 (config : Config) (line : List Char) :
    replace_if_not_empty config line
      = if config.replace = [] then line
        else specReplaceAll config.query config.replace line := by
  unfold replace_if_not_empty replace
  by_cases h : config.replace = []
  · simp [h]
  · simp [h, stdReplace_eq_specReplaceAll]

/-- The printing loop emits exactly one line per matched line. -/
theorem runLines_length (config : Config) (contents : List Char) :
    (runLines config contents).length
      = (search_based_on_case config contents).length := by
  simp [runLines]

/-- C8: the line emitted at position `i` of the output carries, when line
numbering is on, the 1-based index `i + 1` within the matched subsequence
(not a position in the original file), prefixed as `"{i+1}: "`; with
numbering off it is the transformed line by itself. -/
theorem c8 (config : Config) (contents : List Char) (i : Nat)
    (h : i < (search_based_on_case config contents).length) :
    (runLines config contents).get
        ⟨i, by rw [runLines_length]; exact h⟩
      = if config.line_number
        then (Nat.repr (i + 1)).data ++ ':' :: ' '
              :: replace_if_not_empty config
                  ((search_based_on_case config contents).get ⟨i, h⟩)
        else replace_if_not_empty config
              ((search_based_on_case config contents).get ⟨i, h⟩) := by
  simp [runLines, print_based_on_line_number, List.get_eq_getElem,
    List.getElem_map, List.getElem_enum]

/-- Witness for C8: on contents `"ab\nxy\nca"` with query `"a"` and
numbering on, the matched line at position 0 of the match subsequence is
emitted with the 1-based prefix `"1: "`. -/
theorem c8_witness :
    0 < (search_based_on_case cfgNum "ab\nxy\nca".data).length
    ∧ (runLines cfgNum "ab\nxy\nca".data).get ⟨0, by decide⟩
        = if cfgNum.line_number
          then (Nat.repr (0 + 1)).data ++ ':' :: ' '
                :: replace_if_not_empty cfgNum
                    ((search_based_on_case cfgNum "ab\nxy\nca".data).get
                      ⟨0, by decide⟩)
          else replace_if_not_empty cfgNum
                ((search_based_on_case cfgNum "ab\nxy\nca".data).get
                  ⟨0, by decide⟩) :=
  ⟨by decide, c8 cfgNum "ab\nxy\nca".data 0 (by decide)⟩

/-- C10: the element after `-r` is taken as the replace value without being
consumed, so the independent flag scans still see it: building from
`[kkjgrep, needle, poem.txt, -r, -n]` yields `replace = "-n"` and
`line_number = true` simultaneously. -/
theorem c10 :
    Config.build none argvRN = Except.ok cfgRN
    ∧ cfgRN.replace = "-n".data
    ∧ cfgRN.line_number = true :=
  ⟨rfl, rfl, rfl⟩

end Kkjgrep
